import Mathlib

/-
Verification of the Py-Hydra wrapper (phydra.py, modules/hydraparser.py,
errors/errors.py) through a shallow embedding in Lean 4.

Conventions of the embedding:
  * Python exceptions become constructors of `PyError`; a function that can
    raise returns `Except PyError α`.
  * The filesystem predicate `os.path.isfile` becomes an abstract `FS`
    parameter (`String → Bool`); `os.path.abspath` an abstract
    `String → String` parameter.
  * `json.load` of the temporary output file is modelled by handing the
    decoded value as `Option Json` (`none` = the bytes are not valid JSON,
    raising `json.decoder.JSONDecodeError` inside `json_opener`).
  * The two service registry files (`services/supported_services` and
    `services/special_services`) are read at construction time and are not
    part of the repository sources, so the lists are abstract parameters.
  * The entry points `bruteforce` and `bruteforce_with_userpass_wordlist`
    are modelled as pure functions of their inputs plus the environment
    (filesystem, the external process exit code and captured stderr, and the
    decoded content of the temporary file after the run).  Besides the
    Python return value / raised exception they expose the final state of
    the filesystem, whether the external process was launched, the built
    command line, and the value stored into `self.threads`.
-/

namespace PyHydra

/-- Python-level exceptions used by the wrapper: the built-in exceptions it
raises (`TypeError`, `ValueError`, `KeyError`) and the exception classes
defined in `errors/errors.py`. -/
inductive PyError where
  | typeError (msg : String)
  | valueError (msg : String)
  | keyError (key : String)
  | hydraError (msg : String)
  | unknownHydraError (msgs : List String)
  | hydraDecodeError (msg : String)
  | hydraUnsupportedServiceError (msg : String)
  | hydraUnknownServiceError (msg : String)
  | hydraFileDoesNotExist (msg : String)
  | hydraNoWordlistGiven (msg : String)
  deriving Repr, DecidableEq

/-- JSON values, as produced by Python `json.load`. -/
inductive Json where
  | null
  | bool (b : Bool)
  | num (n : Int)
  | str (s : String)
  | arr (xs : List Json)
  | obj (fields : List (String × Json))
  deriving Repr

mutual

/-- Boolean equality of JSON values (Python `==` restricted to decoded JSON
data; used for `dict` key comparison). -/
def Json.beq : Json → Json → Bool
  | .null, .null => true
  | .bool a, .bool b => a == b
  | .num a, .num b => a == b
  | .str a, .str b => a == b
  | .arr xs, .arr ys => Json.beqList xs ys
  | .obj fs, .obj gs => Json.beqFields fs gs
  | _, _ => false

/-- Elementwise `Json.beq` on lists. -/
def Json.beqList : List Json → List Json → Bool
  | [], [] => true
  | x :: xs, y :: ys => Json.beq x y && Json.beqList xs ys
  | _, _ => false

/-- Elementwise `Json.beq` on object field lists. -/
def Json.beqFields : List (String × Json) → List (String × Json) → Bool
  | [], [] => true
  | (k1, v1) :: fs, (k2, v2) :: gs => k1 == k2 && Json.beq v1 v2 && Json.beqFields fs gs
  | _, _ => false

end

/-- Python `str.lower()` (ASCII case folding, which covers every service and
export-type name the wrapper handles). -/
def pyLower (s : String) : String := ⟨s.data.map Char.toLower⟩

/-- Helper of `pySplitLines`: split a character list on a separator
character, mirroring Python `str.split(sep)` (empty pieces are kept). -/
def splitLinesAux : List Char → List Char → List String
  | [], acc => [⟨acc.reverse⟩]
  | c :: cs, acc =>
    if c = '\n' then ⟨acc.reverse⟩ :: splitLinesAux cs []
    else splitLinesAux cs (c :: acc)

/-- Python `str.split("\n")`. -/
def pySplitLines (s : String) : List String := splitLinesAux s.data []

/-- Python `str.startswith(marker)`. -/
def pyStartsWith (s marker : String) : Bool := marker.data.isPrefixOf s.data

/-- Key lookup in a decoded JSON object (a Python `dict`). -/
def lookupField : List (String × Json) → String → Option Json
  | [], _ => none
  | (k, v) :: rest, key => if k = key then some v else lookupField rest key

/-- Python subscription `x[key]` with a string key: succeeds on a `dict`
containing the key, raises `KeyError` on a `dict` missing it, and raises
`TypeError` on every non-`dict` value. -/
def Json.subscript : Json → String → Except PyError Json
  | .obj fields, key =>
    match lookupField fields key with
    | some v => .ok v
    | none => .error (.keyError key)
  | _, _ => .error (.typeError "value is not subscriptable by a string key")

/-- Python iteration over a decoded JSON value: a list yields its elements,
a `dict` yields its keys, a string yields its one-character substrings, and
every other value raises `TypeError`. -/
def pyIter : Json → Except PyError (List Json)
  | .arr xs => .ok xs
  | .obj fields => .ok (fields.map (fun f => .str f.1))
  | .str s => .ok (s.toList.map (fun c => .str (String.singleton c)))
  | _ => .error (.typeError "value is not iterable")

/-- A Python list comprehension `[f(x) for x in xs]` over a fallible `f`:
elements are produced left to right, the first raised exception propagates. -/
def mapExcept (f : Json → Except PyError Json) : List Json → Except PyError (List Json)
  | [] => .ok []
  | x :: xs =>
    match f x with
    | .error e => .error e
    | .ok y =>
      match mapExcept f xs with
      | .error e => .error e
      | .ok ys => .ok (y :: ys)

/-- Insertion into a Python `dict`: an existing key keeps its position but
takes the new value, a new key is appended. -/
def dictInsert (d : List (Json × Json)) (k v : Json) : List (Json × Json) :=
  if d.any (fun p => Json.beq p.1 k) then
    d.map (fun p => if Json.beq p.1 k then (k, v) else p)
  else
    d ++ [(k, v)]

/-- Python `dict(pairs)`: left-to-right insertion, so a repeated key ends up
with the value of its last occurrence. -/
def pyDict (pairs : List (Json × Json)) : List (Json × Json) :=
  pairs.foldl (fun d p => dictInsert d p.1 p.2) []

/-- Value bound to a key in a Python `dict` (as built by `pyDict`). -/
def dictLookup : List (Json × Json) → Json → Option Json
  | [], _ => none
  | (k, v) :: rest, key => if Json.beq k key then some v else dictLookup rest key

namespace HydraParser

/-- `HydraParser.json_opener`: decode the output file as JSON; a decode
failure is reraised as `HydraDecodeError` with a message naming the path. -/
def json_opener (json_path : String) (decoded : Option Json) : Except PyError Json :=
  match decoded with
  | some hydra_json => .ok hydra_json
  | none =>
    .error (.hydraDecodeError
      ("Can\x27t open the given file : " ++ json_path ++ ". Please make sure it is a JSON file."))

/-- The `try` body of `HydraParser.json2dict`: the two list comprehensions
extracting the `login` and `password` fields of each entry of
`hydra_output["results"]`, zipped into a `dict`. -/
def json2dictTry (hydra_output : Json) : Except PyError (List (Json × Json)) :=
  match hydra_output.subscript "results" with
  | .error e => .error e
  | .ok results1 =>
    match pyIter results1 with
    | .error e => .error e
    | .ok items1 =>
      match mapExcept (fun l => l.subscript "login") items1 with
      | .error e => .error e
      | .ok login =>
        match hydra_output.subscript "results" with
        | .error e => .error e
        | .ok results2 =>
          match pyIter results2 with
          | .error e => .error e
          | .ok items2 =>
            match mapExcept (fun p => p.subscript "password") items2 with
            | .error e => .error e
            | .ok password => .ok (pyDict (login.zip password))

/-- `HydraParser.json2dict`: open and decode the file, extract the
credential mapping, and turn any `KeyError` into `HydraDecodeError`. -/
def json2dict (json_path : String) (decoded : Option Json) :
    Except PyError (List (Json × Json)) :=
  match json_opener json_path decoded with
  | .error e => .error e
  | .ok hydra_output =>
    match json2dictTry hydra_output with
    | .ok working_creds => .ok working_creds
    | .error (.keyError _) =>
      .error (.hydraDecodeError
        ("Couldn\x27t parse any Hydra information from the json file: " ++ json_path))
    | .error e => .error e

end HydraParser

/-- The `hydra_args` dictionary of `Hydra.__init__`: flag spelling for each
named hydra argument. -/
def hydra_args : List (String × String) :=
  [("UserWordlist", "-L"), ("Username", "-l"), ("PassWordlist", "-P"),
   ("Password", "-p"), ("Threads", "-t"), ("OutputFilename", "-o"),
   ("OutputType", "-b"), ("IgnoreRestoreFile", "-I"), ("Port", "-s"),
   ("UserPassWordlist", "-C")]

/-- Lookup in `hydra_args` (Python `self.hydra_args[key]`; every key used by
the code is present, so the default is never reached). -/
def hydraArg (key : String) : String :=
  ((hydra_args.lookup key).getD "")

/-- `Hydra.valid_outputs`. -/
def valid_outputs : List String := ["text", "json", "jsonv1"]

/-- `Hydra.service_without_user`. -/
def service_without_user : List String :=
  ["redis", "adam6500", "cisco", "oracle-listener", "s7-300", "snmp", "vnc"]

/-- Abstract filesystem: `FS path` is Python `os.path.isfile(path)`. -/
def FS : Type := String → Bool

/-- `Hydra._default_string_generator`: the common suffix of every command
(threads, output file, output type, ignore-restore-file). -/
def _default_string_generator (threads : Option Int) (output_file_name : Option String)
    (export_type : Option String) ( ignore_restore_file : Bool) : String :=
  let c0 := ""
  let c1 :=
    match threads with
    | some t => c0 ++ " " ++ hydraArg "Threads" ++ " " ++ toString t
    | none => c0
  let c2 :=
    match output_file_name with
    | some o => c1 ++ " " ++ hydraArg "OutputFilename" ++ " " ++ o
    | none => c1
  let c3 :=
    match export_type with
    | some e => c2 ++ " " ++ hydraArg "OutputType" ++ " " ++ e
    | none => c2
  if ignore_restore_file then c3 ++ " " ++ hydraArg "IgnoreRestoreFile" else c3

/-- `Hydra._user_and_pass_wordlists_string_generator`: build the command for
the dual-wordlist mode, resolving each wordlist parameter to a file flag or
a literal-credential flag by `os.path.isfile`. -/
def _user_and_pass_wordlists_string_generator (fs : FS) (hydra_path ip : String)
    (threads wait_time : Int) (service : String) (port : Int) (export_type : String)
    ( ignore_restore_file : Bool) (user_wordlist pass_wordlist : Option String)
    (output_file_name : Option String) : Except PyError String :=
  let hydra_target := service ++ "://" ++ ip ++ ":" ++ toString port
  let base := hydra_path ++ " " ++ hydra_target ++ " -w " ++ toString wait_time
  let afterUser : Except PyError String :=
    if service ∈ service_without_user then
      .ok base
    else
      match user_wordlist with
      | some u =>
        if fs u then .ok (base ++ " " ++ hydraArg "UserWordlist" ++ " " ++ u)
        else .ok (base ++ " " ++ hydraArg "Username" ++ " " ++ u)
      | none => .error (.hydraNoWordlistGiven "user_wordlist is None")
  match afterUser with
  | .error e => .error e
  | .ok c1 =>
    match pass_wordlist with
    | some p =>
      let c2 :=
        if fs p then c1 ++ " " ++ hydraArg "PassWordlist" ++ " " ++ p
        else c1 ++ " " ++ hydraArg "Password" ++ " " ++ p
      .ok (c2 ++
        _default_string_generator (some threads) output_file_name (some export_type)
          ignore_restore_file)
    | none => .error (.hydraNoWordlistGiven "pass_wordlist is None")

/-- `Hydra._userpass_wordlist_string_generator`: build the command for the
combined-wordlist mode; a missing file raises `HydraFileDoesNotExist`. -/
def _userpass_wordlist_string_generator (fs : FS) (hydra_path ip : String)
    (threads wait_time : Int) (service : String) (port : Int) (export_type : String)
    ( ignore_restore_file : Bool) (userpass_wordlist : String)
    (output_file_name : Option String) : Except PyError String :=
  let hydra_target := service ++ "://" ++ ip ++ ":" ++ toString port
  let base := hydra_path ++ " " ++ hydra_target ++ " -w " ++ toString wait_time
  if fs userpass_wordlist then
    .ok (base ++ " " ++ hydraArg "UserPassWordlist" ++ " " ++ userpass_wordlist ++
      _default_string_generator (some threads) output_file_name (some export_type)
        ignore_restore_file)
  else
    .error (.hydraFileDoesNotExist "Unable to find the file")

/-- Scan loop of `Hydra._running_command` on a non-zero exit code: the first
captured line starting with `[ERROR]` is raised as `HydraError`; if none is
found the full line list is raised as `UnknownHydraError`. -/
def scanHydraErrors (remaining hydra_messages : List String) : Except PyError Unit :=
  match remaining with
  | [] => .error (.unknownHydraError hydra_messages)
  | m :: rest =>
    if pyStartsWith m "[ERROR]" then .error (.hydraError m)
    else scanHydraErrors rest hydra_messages

/-- `Hydra._running_command`, given the exit code of the external process and
its captured standard-error text: `[WARNING]` lines are only logged; a
non-zero exit code is classified by `scanHydraErrors`. -/
def _running_command (exit_code : Int) (stderrText : String) : Except PyError Unit :=
  let hydra_messages := pySplitLines stderrText
  if exit_code ≠ 0 then scanHydraErrors hydra_messages hydra_messages
  else .ok ()

/-- Observable outcome of one entry-point call: the Python result (returned
mapping or raised exception), the filesystem after the call, whether the
external process was launched, the command line built (when the builder was
reached and succeeded), and the value stored into `self.threads` (when the
clamping assignment was reached). -/
structure CallResult where
  result : Except PyError (List (Json × Json))
  fsAfter : FS
  launched : Bool
  command : Option String
  selfThreads : Option Int

/-- `Hydra.bruteforce` (dual-wordlist entry point) as a function of its
arguments and the environment: `fs` is the filesystem, `supported_services`
and `unsupported_services` the two registry lists read at construction,
`tmpName` the name picked by `tempfile.NamedTemporaryFile`, `exit_code` and
`stderrText` the behaviour of the external process, and `fileContents` the
decoded JSON content of each file after the run (`none` = not valid JSON).
Type checks of the Python code are vacuous here because the embedding is
typed; the `int(port)` conversion is the identity on an `Int` port. -/
def bruteforce (fs : FS) (supported_services unsupported_services : List String)
    (hydra_path ip : String) (service : String) (port : Int)
    (user_wordlist pass_wordlist : Option String) (threads : Int)
    (export_type : String) ( ignore_restore_file : Bool) (wait_time : Int)
    (tmpName : String) (exit_code : Int) (stderrText : String)
    (fileContents : String → Option Json) : CallResult :=
  if export_type ∉ valid_outputs then
    { result := .error (.valueError (export_type ++
        " is not a valid export type, use \x27text\x27, \x27json\x27 or \x27jsonv1\x27")),
      fsAfter := fs, launched := false, command := none, selfThreads := none }
  else
    let selfThreads : Int := if threads ≥ 65 then 64 else threads
    let service1 := pyLower service
    let export1 := pyLower export_type
    if service1 ∉ supported_services then
      if service1 ∈ unsupported_services then
        { result := .error (.hydraUnsupportedServiceError
            ("Unsupported service given : " ++ service1)),
          fsAfter := fs, launched := false, command := none,
          selfThreads := some selfThreads }
      else
        { result := .error (.hydraUnknownServiceError ("Unknown service: " ++ service1)),
          fsAfter := fs, launched := false, command := none,
          selfThreads := some selfThreads }
    else
      let fs1 : FS := fun s => if s = tmpName then true else fs s
      let fs2 : FS := fun s => if s = tmpName then false else fs1 s
      match _user_and_pass_wordlists_string_generator fs1 hydra_path ip threads wait_time
          service1 port export1 ignore_restore_file user_wordlist pass_wordlist
          (some tmpName) with
      | .error e =>
        { result := .error e, fsAfter := fs2, launched := false, command := none,
          selfThreads := some selfThreads }
      | .ok command_string =>
        match _running_command exit_code stderrText with
        | .error e =>
          { result := .error e, fsAfter := fs2, launched := true,
            command := some command_string, selfThreads := some selfThreads }
        | .ok _ =>
          { result := HydraParser.json2dict tmpName (fileContents tmpName),
            fsAfter := fs2, launched := true, command := some command_string,
            selfThreads := some selfThreads }

/-- `Hydra.bruteforce_with_userpass_wordlist` (combined-wordlist entry point)
as a function of its arguments and the environment; `abspath` is
`os.path.abspath`. -/
def bruteforce_with_userpass_wordlist (fs : FS) (abspath : String → String)
    (supported_services unsupported_services : List String) (hydra_path ip : String)
    (service : String) (port : Int) (userpass_wordlist_path : String) (threads : Int)
    (export_type : String) ( ignore_restore_file : Bool) (wait_time : Int)
    (tmpName : String) (exit_code : Int) (stderrText : String)
    (fileContents : String → Option Json) : CallResult :=
  if ¬ fs (abspath userpass_wordlist_path) then
    { result := .error (.typeError "Wordlist path does not exist"),
      fsAfter := fs, launched := false, command := none, selfThreads := none }
  else
    let path1 := abspath userpass_wordlist_path
    if export_type ∉ valid_outputs then
      { result := .error (.valueError (export_type ++
          " is not a valid export type, use \x27text\x27, \x27json\x27 or \x27jsonv1\x27")),
        fsAfter := fs, launched := false, command := none, selfThreads := none }
    else
      let selfThreads : Int := if threads ≥ 65 then 64 else threads
      let service1 := pyLower service
      let export1 := pyLower export_type
      if service1 ∉ supported_services then
        if service1 ∈ unsupported_services then
          { result := .error (.hydraUnsupportedServiceError
              ("Unsupported service given : " ++ service1)),
            fsAfter := fs, launched := false, command := none,
            selfThreads := some selfThreads }
        else
          { result := .error (.hydraUnknownServiceError ("Unknown service: " ++ service1)),
            fsAfter := fs, launched := false, command := none,
            selfThreads := some selfThreads }
      else
        let fs1 : FS := fun s => if s = tmpName then true else fs s
        let fs2 : FS := fun s => if s = tmpName then false else fs1 s
        match _userpass_wordlist_string_generator fs1 hydra_path ip threads wait_time
            service1 port export1 ignore_restore_file path1 (some tmpName) with
        | .error e =>
          { result := .error e, fsAfter := fs2, launched := false, command := none,
            selfThreads := some selfThreads }
        | .ok command_string =>
          match _running_command exit_code stderrText with
          | .error e =>
            { result := .error e, fsAfter := fs2, launched := true,
              command := some command_string, selfThreads := some selfThreads }
          | .ok _ =>
            { result := HydraParser.json2dict tmpName (fileContents tmpName),
              fsAfter := fs2, launched := true, command := some command_string,
              selfThreads := some selfThreads }

/-- First token following the given flag in an argument list (how the
external process, started on `command_string.split()`, reads a flag value). -/
def tokenAfter (flag : String) : List String → Option String
  | [] => none
  | [_] => none
  | a :: b :: rest => if a = flag then some b else tokenAfter flag (b :: rest)

/-- Helper of `pySplitWhitespace`: split a character list on runs of spaces,
discarding empty pieces. -/
def splitSpacesAux : List Char → List Char → List String
  | [], [] => []
  | [], acc => [⟨acc.reverse⟩]
  | c :: cs, acc =>
    if c = ' ' then
      match acc with
      | [] => splitSpacesAux cs []
      | _ => ⟨acc.reverse⟩ :: splitSpacesAux cs []
    else splitSpacesAux cs (c :: acc)

/-- Python `str.split()` with no separator, as `subprocess.Popen` receives
the built command (`command_string.split()` in `_running_command`). -/
def pySplitWhitespace (s : String) : List String := splitSpacesAux s.data []

/-- Whether a call outcome is a raised `HydraFileDoesNotExist`. -/
def raisedFileDoesNotExist : Except PyError (List (Json × Json)) → Bool
  | .error (.hydraFileDoesNotExist _) => true
  | _ => false

mutual

/-- `Json.beq` is reflexive. -/
theorem Json.beq_refl : (a : Json) → Json.beq a a = true
  | .null => rfl
  | .bool b => by simp [Json.beq]
  | .num n => by simp [Json.beq]
  | .str s => by simp [Json.beq]
  | .arr xs => by simp [Json.beq, Json.beqList_refl xs]
  | .obj fs => by simp [Json.beq, Json.beqFields_refl fs]

/-- `Json.beqList` is reflexive. -/
theorem Json.beqList_refl : (xs : List Json) → Json.beqList xs xs = true
  | [] => rfl
  | x :: xs => by simp [Json.beqList, Json.beq_refl x, Json.beqList_refl xs]

/-- `Json.beqFields` is reflexive. -/
theorem Json.beqFields_refl : (fs : List (String × Json)) → Json.beqFields fs fs = true
  | [] => rfl
  | (k, v) :: fs => by simp [Json.beqFields, Json.beq_refl v, Json.beqFields_refl fs]

end

/-- Unfolding `dictLookup` on a cons cell. -/
theorem dictLookup_cons (p : Json × Json) (rest : List (Json × Json)) (key : Json) :
    dictLookup (p :: rest) key =
      if Json.beq p.1 key then some p.2 else dictLookup rest key := by
  obtain ⟨a, b⟩ := p
  rfl

/-- Inserting a binding into a Python `dict` makes the inserted value the one
found for that key: the last write wins. -/
theorem dictLookup_dictInsert (d : List (Json × Json)) (k v : Json) :
    dictLookup (dictInsert d k v) k = some v := by
  unfold dictInsert
  by_cases hany : d.any (fun p => Json.beq p.1 k) = true
  · rw [if_pos hany]
    induction d with
    | nil => simp at hany
    | cons p rest ih =>
      rw [List.map_cons]
      by_cases hp : Json.beq p.1 k = true
      · rw [if_pos hp, dictLookup_cons]
        simp [Json.beq_refl]
      · rw [if_neg hp, dictLookup_cons]
        simp only [List.any_cons] at hany
        rw [if_neg hp]
        exact ih (by simpa [hp] using hany)
  · rw [if_neg hany]
    induction d with
    | nil =>
      rw [List.nil_append, dictLookup_cons]
      simp [Json.beq_refl]
    | cons p rest ih =>
      have hp : ¬ Json.beq p.1 k = true := by
        intro hc
        exact hany (by simp [List.any_cons, hc])
      have hrest : ¬ rest.any (fun q => Json.beq q.1 k) = true := by
        intro hc
        exact hany (by simp [List.any_cons, hc])
      rw [List.cons_append, dictLookup_cons, if_neg hp]
      exact ih hrest

/-- `scanHydraErrors` raises `HydraError` on the first line starting with the
error marker and `UnknownHydraError` when no line does. -/
theorem scanHydraErrors_eq_find (remaining all : List String) :
    scanHydraErrors remaining all =
      match remaining.find? (fun m => pyStartsWith m "[ERROR]") with
      | some l => .error (.hydraError l)
      | none => .error (.unknownHydraError all) := by
  induction remaining with
  | nil => simp [scanHydraErrors]
  | cons m rest ih =>
    by_cases hm : pyStartsWith m "[ERROR]" = true
    · simp [scanHydraErrors, hm, List.find?]
    · simp only [Bool.not_eq_true] at hm
      simp [scanHydraErrors, hm, List.find?, ih]

/-- Subscription of an object containing the key. -/
theorem Json.subscript_obj (fields : List (String × Json)) (key : String) (v : Json)
    (h : lookupField fields key = some v) :
    Json.subscript (.obj fields) key = .ok v := by
  simp [Json.subscript, h]

/-- Subscription of an object missing the key. -/
theorem Json.subscript_obj_none (fields : List (String × Json)) (key : String)
    (h : lookupField fields key = none) :
    Json.subscript (.obj fields) key = .error (.keyError key) := by
  simp [Json.subscript, h]

/-- When every entry is an object carrying the key, the extraction
comprehension succeeds. -/
theorem mapExcept_subscript_ok (key : String) (entries : List Json)
    (h : ∀ e ∈ entries, ∃ efs, e = .obj efs ∧ (lookupField efs key).isSome) :
    ∃ vs, mapExcept (fun x => Json.subscript x key) entries = .ok vs := by
  induction entries with
  | nil => exact ⟨[], rfl⟩
  | cons e rest ih =>
    obtain ⟨efs, he, hsome⟩ := h e (List.mem_cons_self e rest)
    obtain ⟨v, hv⟩ := Option.isSome_iff_exists.mp hsome
    obtain ⟨vs, hvs⟩ := ih (fun x hx => h x (List.mem_cons_of_mem e hx))
    subst he
    refine ⟨v :: vs, ?_⟩
    simp only [mapExcept]
    rw [Json.subscript_obj efs key v hv, hvs]

/-- When every entry is an object and some entry misses the key, the
extraction comprehension raises `KeyError`. -/
theorem mapExcept_subscript_keyError (key : String) (entries : List Json)
    (hobj : ∀ e ∈ entries, ∃ efs, e = .obj efs)
    (hmiss : ∃ efs, Json.obj efs ∈ entries ∧ lookupField efs key = none) :
    ∃ k, mapExcept (fun x => Json.subscript x key) entries = .error (.keyError k) := by
  induction entries with
  | nil =>
    obtain ⟨efs, hmem, _⟩ := hmiss
    simp at hmem
  | cons e rest ih =>
    obtain ⟨efs, hmem, hnone⟩ := hmiss
    obtain ⟨gfs, hg⟩ := hobj e (List.mem_cons_self e rest)
    subst hg
    cases hlk : lookupField gfs key with
    | none =>
      refine ⟨key, ?_⟩
      simp only [mapExcept]
      rw [Json.subscript_obj_none gfs key hlk]
    | some v =>
      have hmem' : Json.obj efs ∈ rest := by
        rcases List.mem_cons.mp hmem with heq | hr
        · injection heq with h1
          subst h1
          rw [hnone] at hlk
          exact absurd hlk (by simp)
        · exact hr
      obtain ⟨k, hk⟩ :=
        ih (fun x hx => hobj x (List.mem_cons_of_mem _ hx)) ⟨efs, hmem', hnone⟩
      refine ⟨k, ?_⟩
      simp only [mapExcept]
      rw [Json.subscript_obj gfs key v hlk, hk]

/-- `json2dict` on a successfully decoded file: only the `KeyError`-to-
`HydraDecodeError` translation remains around the extraction body. -/
theorem HydraParser.json2dict_some (path : String) (j : Json) :
    HydraParser.json2dict path (some j) =
      match HydraParser.json2dictTry j with
      | .ok working_creds => .ok working_creds
      | .error (.keyError _) =>
        .error (.hydraDecodeError
          ("Couldn\x27t parse any Hydra information from the json file: " ++ path))
      | .error e => .error e := rfl

/-- The extraction body on an object whose `results` key holds an array:
two comprehensions over the entries, then the zip. -/
theorem HydraParser.json2dictTry_results (fields : List (String × Json))
    (entries : List Json) (h : lookupField fields "results" = some (.arr entries)) :
    HydraParser.json2dictTry (.obj fields) =
      match mapExcept (fun l => Json.subscript l "login") entries with
      | .error e => .error e
      | .ok login =>
        match mapExcept (fun p => Json.subscript p "password") entries with
        | .error e => .error e
        | .ok password => .ok (pyDict (login.zip password)) := by
  unfold HydraParser.json2dictTry
  rw [Json.subscript_obj fields "results" (.arr entries) h]
  rfl

/-- C3: for every well-formed output whose decoded JSON is an object with a
`results` array of entries each carrying `login` and `password` fields,
`json2dict` returns the mapping built by zipping the login sequence with the
password sequence in order (Python `dict(zip(...))`), whose construction is
last-write-wins: looking up a key after inserting it yields the inserted
value, so a later duplicate login overwrites an earlier one. -/
theorem json2dict_zips_logins_with_passwords :
    (∀ (path : String) (fields : List (String × Json)) (entries login password : List Json),
      lookupField fields "results" = some (.arr entries) →
      mapExcept (fun l => Json.subscript l "login") entries = .ok login →
      mapExcept (fun p => Json.subscript p "password") entries = .ok password →
      HydraParser.json2dict path (some (.obj fields)) =
        .ok (pyDict (login.zip password))) ∧
    (∀ (d : List (Json × Json)) (k v : Json), dictLookup (dictInsert d k v) k = some v) := by
  constructor
  · intro path fields entries login password h1 h2 h3
    rw [HydraParser.json2dict_some, HydraParser.json2dictTry_results fields entries h1,
      h3, h2]
  · exact dictLookup_dictInsert

/-- Witness for C3: the two-entry example file yields the mapping
`{"a": "1", "b": "2"}`, and a duplicated login keeps the later password. -/
theorem json2dict_zips_logins_with_passwords_witness :
    HydraParser.json2dict "out.json"
        (some (.obj [("results", .arr
          [.obj [("login", .str "a"), ("password", .str "1")],
           .obj [("login", .str "b"), ("password", .str "2")]])])) =
      .ok [(.str "a", .str "1"), (.str "b", .str "2")] ∧
    dictLookup (pyDict [(.str "a", .str "1"), (.str "a", .str "2")]) (.str "a") =
      some (.str "2") := by
  constructor
  · rw [json2dict_zips_logins_with_passwords.1 "out.json"
      [("results", .arr
        [.obj [("login", .str "a"), ("password", .str "1")],
         .obj [("login", .str "b"), ("password", .str "2")]])]
      [.obj [("login", .str "a"), ("password", .str "1")],
       .obj [("login", .str "b"), ("password", .str "2")]]
      [.str "a", .str "b"] [.str "1", .str "2"] rfl rfl rfl]
    rfl
  · rfl

/-- C4: a file whose contents are not valid JSON makes `json2dict` fail with
`HydraDecodeError` naming the file path; a decoded object with no `results`
key, or whose entries are objects one of which lacks `login` or `password`,
fails with the same `HydraDecodeError` classification. -/
theorem json2dict_decode_error_classification :
    (∀ path : String,
      HydraParser.json2dict path none =
        .error (.hydraDecodeError ("Can\x27t open the given file : " ++ path ++
          ". Please make sure it is a JSON file."))) ∧
    (∀ (path : String) (fields : List (String × Json)),
      lookupField fields "results" = none →
      HydraParser.json2dict path (some (.obj fields)) =
        .error (.hydraDecodeError
          ("Couldn\x27t parse any Hydra information from the json file: " ++ path))) ∧
    (∀ (path : String) (fields : List (String × Json)) (entries : List Json),
      lookupField fields "results" = some (.arr entries) →
      (∀ e ∈ entries, ∃ efs, e = .obj efs) →
      (∃ efs, Json.obj efs ∈ entries ∧
        (lookupField efs "login" = none ∨ lookupField efs "password" = none)) →
      HydraParser.json2dict path (some (.obj fields)) =
        .error (.hydraDecodeError
          ("Couldn\x27t parse any Hydra information from the json file: " ++ path))) := by
  refine ⟨fun path => rfl, fun path fields h => ?_, ?_⟩
  · rw [HydraParser.json2dict_some]
    have htry : HydraParser.json2dictTry (.obj fields) = .error (.keyError "results") := by
      unfold HydraParser.json2dictTry
      rw [Json.subscript_obj_none fields "results" h]
    rw [htry]
  · intro path fields entries h1 hobj hmiss
    by_cases hlogin : ∃ gfs, Json.obj gfs ∈ entries ∧ lookupField gfs "login" = none
    · obtain ⟨k, hk⟩ := mapExcept_subscript_keyError "login" entries hobj hlogin
      rw [HydraParser.json2dict_some, HydraParser.json2dictTry_results fields entries h1,
        hk]
    · have hall : ∀ e ∈ entries, ∃ gfs, e = .obj gfs ∧ (lookupField gfs "login").isSome := by
        intro e he
        obtain ⟨gfs, hg⟩ := hobj e he
        refine ⟨gfs, hg, ?_⟩
        cases hlk : lookupField gfs "login" with
        | none => exact absurd ⟨gfs, hg ▸ he, hlk⟩ hlogin
        | some v => rfl
      obtain ⟨ls, hls⟩ := mapExcept_subscript_ok "login" entries hall
      obtain ⟨efs, hmem, hcase⟩ := hmiss
      have hpass : lookupField efs "password" = none := by
        rcases hcase with hno | hp
        · exact absurd ⟨efs, hmem, hno⟩ hlogin
        · exact hp
      obtain ⟨k, hk⟩ :=
        mapExcept_subscript_keyError "password" entries hobj ⟨efs, hmem, hpass⟩
      rw [HydraParser.json2dict_some, HydraParser.json2dictTry_results fields entries h1,
        hk, hls]

/-- Witness for C4: a decoded object with no `results` key, and a `results`
array whose single entry lacks `password`, both fail with the decode-error
classification naming the path. -/
theorem json2dict_decode_error_classification_witness :
    HydraParser.json2dict "w.json" (some (.obj [])) =
      .error (.hydraDecodeError
        ("Couldn\x27t parse any Hydra information from the json file: " ++ "w.json")) ∧
    HydraParser.json2dict "w.json"
        (some (.obj [("results", .arr [.obj [("login", .str "a")]])])) =
      .error (.hydraDecodeError
        ("Couldn\x27t parse any Hydra information from the json file: " ++ "w.json")) := by
  constructor
  · exact json2dict_decode_error_classification.2.1 "w.json" [] rfl
  · exact json2dict_decode_error_classification.2.2 "w.json"
      [("results", .arr [.obj [("login", .str "a")]])]
      [.obj [("login", .str "a")]] rfl
      (by intro e he; simp at he; exact ⟨[("login", .str "a")], he⟩)
      ⟨[("login", .str "a")], by simp, Or.inr rfl⟩

/-- C8: on a non-zero exit code, the first captured standard-error line
beginning with `[ERROR]` becomes the message of a `HydraError`; when no line
begins with that marker, an `UnknownHydraError` carries all captured lines.
On exit code zero the runner succeeds regardless of the captured lines, so
`[WARNING]` lines (which are only logged) never affect the outcome. -/
theorem running_command_error_classification (exit_code : Int) (stderrText : String) :
    (exit_code ≠ 0 →
      (∀ l, (pySplitLines stderrText).find? (fun m => pyStartsWith m "[ERROR]") = some l →
        _running_command exit_code stderrText = .error (.hydraError l)) ∧
      ((pySplitLines stderrText).find? (fun m => pyStartsWith m "[ERROR]") = none →
        _running_command exit_code stderrText =
          .error (.unknownHydraError (pySplitLines stderrText)))) ∧
    (exit_code = 0 → _running_command exit_code stderrText = .ok ()) := by
  constructor
  · intro hec
    constructor
    · intro l hl
      unfold _running_command
      rw [if_pos hec, scanHydraErrors_eq_find, hl]
    · intro hnone
      unfold _running_command
      rw [if_pos hec, scanHydraErrors_eq_find, hnone]
  · intro hec
    unfold _running_command
    rw [if_neg (fun h => h hec)]

/-- Witness for C8: exit code 1 with a warning line, an error line and a
trailing line raises `HydraError` on the error line; exit code 1 with only a
warning raises `UnknownHydraError` with all lines; exit code 0 succeeds. -/
theorem running_command_error_classification_witness :
    _running_command 1 "[WARNING] w\n[ERROR] boom\nrest" =
      .error (.hydraError "[ERROR] boom") ∧
    _running_command 1 "[WARNING] w\nrest" =
      .error (.unknownHydraError ["[WARNING] w", "rest"]) ∧
    _running_command 0 "[WARNING] w" = .ok () := by
  refine ⟨?_, ?_, ?_⟩
  · exact (running_command_error_classification 1 "[WARNING] w\n[ERROR] boom\nrest").1
      (by decide) |>.1 "[ERROR] boom" (by decide)
  · have h := (running_command_error_classification 1 "[WARNING] w\nrest").1
      (by decide) |>.2 (by decide)
    rw [h]
    rfl
  · exact (running_command_error_classification 0 "[WARNING] w").2 rfl

/-- C7: in dual-wordlist command building for a service requiring a
username, a user parameter naming an existing file is passed via `-L`,
otherwise via `-l`; symmetrically the password parameter is passed via `-P`
when it names an existing file and via `-p` otherwise.  A string matching an
existing filename is therefore always treated as a wordlist. -/
theorem user_and_pass_path_or_literal (fs : FS) (hydra_path ip : String)
    (threads wait_time : Int) (service : String) (port : Int) (export_type : String)
    ( ignore_restore_file : Bool) (u p : String) (output_file_name : Option String)
    (hsw : service ∉ service_without_user) :
    _user_and_pass_wordlists_string_generator fs hydra_path ip threads wait_time service
        port export_type ignore_restore_file (some u) (some p) output_file_name =
      (let base := hydra_path ++ " " ++ (service ++ "://" ++ ip ++ ":" ++ toString port) ++
        " -w " ++ toString wait_time
      let withUser := if fs u then base ++ " " ++ "-L" ++ " " ++ u
        else base ++ " " ++ "-l" ++ " " ++ u
      let withPass := if fs p then withUser ++ " " ++ "-P" ++ " " ++ p
        else withUser ++ " " ++ "-p" ++ " " ++ p
      .ok (withPass ++
        _default_string_generator (some threads) output_file_name (some export_type)
          ignore_restore_file)) := by
  simp only [_user_and_pass_wordlists_string_generator, if_neg hsw]
  cases hfu : fs u <;> cases hfp : fs p <;> rfl

/-- Witness for C7: when only `pass.txt` exists, the user string `root` is
passed literally via `-l` while the password string `pass.txt` is passed as a
wordlist via `-P`. -/
theorem user_and_pass_path_or_literal_witness :
    _user_and_pass_wordlists_string_generator (fun s => s == "pass.txt")
        "/usr/bin/hydra" "127.0.0.1" 4 2 "ssh" 22 "json" true (some "root")
        (some "pass.txt") (some "/tmp/o") =
      .ok "/usr/bin/hydra ssh://127.0.0.1:22 -w 2 -l root -P pass.txt -t 4 -o /tmp/o -b json -I" := by
  rw [user_and_pass_path_or_literal (fun s => s == "pass.txt") "/usr/bin/hydra"
    "127.0.0.1" 4 2 "ssh" 22 "json" true "root" "pass.txt" (some "/tmp/o") (by decide)]
  rfl

/-- C10: export-type validation is case-sensitive: a string outside
`valid_outputs` whose lower-casing is inside it (such as `"JSON"`) makes both
entry points raise the invalid-value `ValueError` before any process launch,
because membership is checked before the string is lower-cased. -/
theorem export_type_checked_before_lowercasing
    (fs : FS) (abspath : String → String)
    (supported_services unsupported_services : List String) (hydra_path ip : String)
    (service : String) (port : Int) (user_wordlist pass_wordlist : Option String)
    (userpass_wordlist_path : String) (threads : Int) (export_type : String)
    ( ignore_restore_file : Bool) (wait_time : Int) (tmpName : String) (exit_code : Int)
    (stderrText : String) (fileContents : String → Option Json)
    (hout : export_type ∉ valid_outputs) (hlow : pyLower export_type ∈ valid_outputs)
    (hfile : fs (abspath userpass_wordlist_path) = true) :
    ((bruteforce fs supported_services unsupported_services hydra_path ip service port
        user_wordlist pass_wordlist threads export_type ignore_restore_file wait_time
        tmpName exit_code stderrText fileContents).result =
      .error (.valueError (export_type ++
        " is not a valid export type, use \x27text\x27, \x27json\x27 or \x27jsonv1\x27")) ∧
     (bruteforce fs supported_services unsupported_services hydra_path ip service port
        user_wordlist pass_wordlist threads export_type ignore_restore_file wait_time
        tmpName exit_code stderrText fileContents).launched = false) ∧
    ((bruteforce_with_userpass_wordlist fs abspath supported_services
        unsupported_services hydra_path ip service port userpass_wordlist_path threads
        export_type ignore_restore_file wait_time tmpName exit_code stderrText
        fileContents).result =
      .error (.valueError (export_type ++
        " is not a valid export type, use \x27text\x27, \x27json\x27 or \x27jsonv1\x27")) ∧
     (bruteforce_with_userpass_wordlist fs abspath supported_services
        unsupported_services hydra_path ip service port userpass_wordlist_path threads
        export_type ignore_restore_file wait_time tmpName exit_code stderrText
        fileContents).launched = false) := by
  refine ⟨⟨?_, ?_⟩, ?_, ?_⟩ <;>
    simp [bruteforce, bruteforce_with_userpass_wordlist, if_pos hout, hfile]

/-- Witness for C10: `"JSON"` is rejected by both entry points even though
`"json"` is valid. -/
theorem export_type_checked_before_lowercasing_witness :
    "JSON" ∉ valid_outputs ∧ pyLower "JSON" ∈ valid_outputs ∧
    (bruteforce (fun _ => true) ["ssh"] [] "/usr/bin/hydra" "127.0.0.1" "ssh" 22
        (some "u") (some "p") 4 "JSON" true 2 "/tmp/o" 0 "" (fun _ => none)).result =
      .error (.valueError ("JSON" ++
        " is not a valid export type, use \x27text\x27, \x27json\x27 or \x27jsonv1\x27")) := by
  refine ⟨by decide, by decide, ?_⟩
  exact (export_type_checked_before_lowercasing (fun _ => true) (fun s => s) ["ssh"] []
    "/usr/bin/hydra" "127.0.0.1" "ssh" 22 (some "u") (some "p") "w" 4 "JSON" true 2
    "/tmp/o" 0 "" (fun _ => none) (by decide) (by decide) rfl).1.1

/-- Counterexample to C2 as stated: with a filesystem containing no files, the
combined-wordlist entry point fails on a missing wordlist path with a
`TypeError` (message `Wordlist path does not exist`), not with the
`HydraFileDoesNotExist` classification the claim names. -/
theorem userpass_missing_file_raises_typeerror_not_filedoesnotexist :
    (bruteforce_with_userpass_wordlist (fun _ => false) (fun s => s) ["ssh"] []
        "/usr/bin/hydra" "127.0.0.1" "ssh" 22 "missing.txt" 4 "json" true 2 "/tmp/o" 0 ""
        (fun _ => none)).result = .error (.typeError "Wordlist path does not exist") ∧
    raisedFileDoesNotExist
      (bruteforce_with_userpass_wordlist (fun _ => false) (fun s => s) ["ssh"] []
        "/usr/bin/hydra" "127.0.0.1" "ssh" 22 "missing.txt" 4 "json" true 2 "/tmp/o" 0 ""
        (fun _ => none)).result = false := by
  exact ⟨rfl, rfl⟩

/-- C2 amended: for every call to `bruteforce_with_userpass_wordlist` whose
userpass wordlist path is not an existing file, the call fails with the
`TypeError` raised by the eager existence check (`Wordlist path does not
exist`) and the external process is never launched; the
`HydraFileDoesNotExist` branch of the command generator is not what fires. -/
theorem userpass_missing_file_fails_before_launch
    (fs : FS) (abspath : String → String)
    (supported_services unsupported_services : List String) (hydra_path ip : String)
    (service : String) (port : Int) (userpass_wordlist_path : String) (threads : Int)
    (export_type : String) ( ignore_restore_file : Bool) (wait_time : Int)
    (tmpName : String) (exit_code : Int) (stderrText : String)
    (fileContents : String → Option Json)
    (hfile : fs (abspath userpass_wordlist_path) = false) :
    (bruteforce_with_userpass_wordlist fs abspath supported_services
        unsupported_services hydra_path ip service port userpass_wordlist_path threads
        export_type ignore_restore_file wait_time tmpName exit_code stderrText
        fileContents).result = .error (.typeError "Wordlist path does not exist") ∧
    (bruteforce_with_userpass_wordlist fs abspath supported_services
        unsupported_services hydra_path ip service port userpass_wordlist_path threads
        export_type ignore_restore_file wait_time tmpName exit_code stderrText
        fileContents).launched = false := by
  constructor <;> simp [bruteforce_with_userpass_wordlist, hfile]

/-- Witness for the amended C2: a concrete call with an empty filesystem. -/
theorem userpass_missing_file_fails_before_launch_witness :
    (bruteforce_with_userpass_wordlist (fun _ => false) (fun s => s) ["ftp"] []
        "/usr/bin/hydra" "10.0.0.1" "ftp" 21 "absent.txt" 4 "json" true 2 "/tmp/o" 0 ""
        (fun _ => none)).result = .error (.typeError "Wordlist path does not exist") ∧
    (bruteforce_with_userpass_wordlist (fun _ => false) (fun s => s) ["ftp"] []
        "/usr/bin/hydra" "10.0.0.1" "ftp" 21 "absent.txt" 4 "json" true 2 "/tmp/o" 0 ""
        (fun _ => none)).launched = false :=
  userpass_missing_file_fails_before_launch (fun _ => false) (fun s => s) ["ftp"] []
    "/usr/bin/hydra" "10.0.0.1" "ftp" 21 "absent.txt" 4 "json" true 2 "/tmp/o" 0 ""
    (fun _ => none) rfl

/-- C9: every invocation of either entry point that reaches temporary-file
creation (export type valid, service supported, and for the combined mode an
existing wordlist) ends with the temporary output file absent from the
filesystem, whatever the generator, the external process and the parser do. -/
theorem tempfile_absent_after_call
    (fs : FS) (abspath : String → String)
    (supported_services unsupported_services : List String) (hydra_path ip : String)
    (service : String) (port : Int) (user_wordlist pass_wordlist : Option String)
    (userpass_wordlist_path : String) (threads : Int) (export_type : String)
    ( ignore_restore_file : Bool) (wait_time : Int) (tmpName : String) (exit_code : Int)
    (stderrText : String) (fileContents : String → Option Json)
    (hout : export_type ∈ valid_outputs) (hsup : pyLower service ∈ supported_services)
    (hfile : fs (abspath userpass_wordlist_path) = true) :
    (bruteforce fs supported_services unsupported_services hydra_path ip service port
        user_wordlist pass_wordlist threads export_type ignore_restore_file wait_time
        tmpName exit_code stderrText fileContents).fsAfter tmpName = false ∧
    (bruteforce_with_userpass_wordlist fs abspath supported_services
        unsupported_services hydra_path ip service port userpass_wordlist_path threads
        export_type ignore_restore_file wait_time tmpName exit_code stderrText
        fileContents).fsAfter tmpName = false := by
  constructor
  · simp only [bruteforce, if_neg (not_not_intro hout), if_neg (not_not_intro hsup)]
    split
    · simp
    · split <;> simp
  · simp only [bruteforce_with_userpass_wordlist, hfile, Bool.true_eq_false,
      not_true_eq_false, not_false_eq_true, if_neg (not_not_intro hout),
      if_neg (not_not_intro hsup)]
    split
    · simp_all
    · split
      · simp
      · split <;> simp

/-- Witness for C9: a concrete successful run and a concrete failed run both
leave the temporary file deleted. -/
theorem tempfile_absent_after_call_witness :
    (bruteforce (fun _ => true) ["ssh"] [] "/usr/bin/hydra" "127.0.0.1" "ssh" 22
        (some "u") (some "p") 4 "json" true 2 "/tmp/hydra_tmp" 0 ""
        (fun _ => some (.obj [("results", .arr [])]))).fsAfter "/tmp/hydra_tmp" = false ∧
    (bruteforce_with_userpass_wordlist (fun _ => true) (fun s => s) ["ssh"] []
        "/usr/bin/hydra" "127.0.0.1" "ssh" 22 "wl.txt" 4 "json" true 2 "/tmp/hydra_tmp"
        1 "[ERROR] no" (fun _ => none)).fsAfter "/tmp/hydra_tmp" = false := by
  constructor
  · exact (tempfile_absent_after_call (fun _ => true) (fun s => s) ["ssh"] []
      "/usr/bin/hydra" "127.0.0.1" "ssh" 22 (some "u") (some "p") "wl.txt" 4 "json" true
      2 "/tmp/hydra_tmp" 0 ""
      (fun _ => some (.obj [("results", .arr [])])) (by decide) (by decide) rfl).1
  · exact (tempfile_absent_after_call (fun _ => true) (fun s => s) ["ssh"] []
      "/usr/bin/hydra" "127.0.0.1" "ssh" 22 (some "u") (some "p") "wl.txt" 4 "json" true
      2 "/tmp/hydra_tmp" 1 "[ERROR] no" (fun _ => none) (by decide) (by decide) rfl).2

/-- C1 (showing the claim false on the code): with a requested thread count
of 100, both entry points log and store the clamped value 64 into
`self.threads`, but the command line they build carries the raw request: the
value following `-t` in the arguments handed to the external process is
`"100"`, not `"64"`.  The clamped field is never read when the command is
generated. -/
theorem threads_not_clamped_in_built_command :
    (bruteforce (fun _ => false) ["ssh"] [] "/usr/bin/hydra" "127.0.0.1" "ssh" 22
        (some "users.txt") (some "pass.txt") 100 "json" true 2 "/tmp/out" 0 ""
        (fun _ => some (.obj [("results", .arr [])]))).selfThreads = some 64 ∧
    (bruteforce (fun _ => false) ["ssh"] [] "/usr/bin/hydra" "127.0.0.1" "ssh" 22
        (some "users.txt") (some "pass.txt") 100 "json" true 2 "/tmp/out" 0 ""
        (fun _ => some (.obj [("results", .arr [])]))).command =
      some ("/usr/bin/hydra ssh://127.0.0.1:22 -w 2 -l users.txt -p pass.txt" ++
        " -t 100 -o /tmp/out -b json -I") ∧
    tokenAfter "-t" (pySplitWhitespace
      ("/usr/bin/hydra ssh://127.0.0.1:22 -w 2 -l users.txt -p pass.txt" ++
        " -t 100 -o /tmp/out -b json -I")) = some "100" ∧
    tokenAfter "-t" (pySplitWhitespace
      ("/usr/bin/hydra ssh://127.0.0.1:22 -w 2 -l users.txt -p pass.txt" ++
        " -t 100 -o /tmp/out -b json -I")) ≠ some "64" ∧
    (bruteforce_with_userpass_wordlist (fun _ => true) (fun s => s) ["ssh"] []
        "/usr/bin/hydra" "127.0.0.1" "ssh" 22 "wl.txt" 100 "json" true 2 "/tmp/out" 0 ""
        (fun _ => some (.obj [("results", .arr [])]))).selfThreads = some 64 ∧
    (bruteforce_with_userpass_wordlist (fun _ => true) (fun s => s) ["ssh"] []
        "/usr/bin/hydra" "127.0.0.1" "ssh" 22 "wl.txt" 100 "json" true 2 "/tmp/out" 0 ""
        (fun _ => some (.obj [("results", .arr [])]))).command =
      some "/usr/bin/hydra ssh://127.0.0.1:22 -w 2 -C wl.txt -t 100 -o /tmp/out -b json -I" := by
  refine ⟨rfl, rfl, by decide, by decide, rfl, rfl⟩

/-- C5: after lower-casing, a service name outside the supported list fails
with an unsupported-service error when it is in the known-unsupported list
and with an unknown-service error otherwise, in both entry points, before any
process launch; and each entry point treats two service spellings with equal
lower-casings identically. -/
theorem service_validation_after_lowercasing :
    (∀ (fs : FS) (sup unsup : List String) (hydra_path ip service : String) (port : Int)
      (uw pw : Option String) (threads : Int) (export_type : String) (irf : Bool)
      (wait_time : Int) (tmpName : String) (ec : Int) (se : String)
      (fc : String → Option Json),
      export_type ∈ valid_outputs → pyLower service ∉ sup →
      ((pyLower service ∈ unsup →
        (bruteforce fs sup unsup hydra_path ip service port uw pw threads export_type
          irf wait_time tmpName ec se fc).result =
            .error (.hydraUnsupportedServiceError
              ("Unsupported service given : " ++ pyLower service)) ∧
        (bruteforce fs sup unsup hydra_path ip service port uw pw threads export_type
          irf wait_time tmpName ec se fc).launched = false) ∧
       (pyLower service ∉ unsup →
        (bruteforce fs sup unsup hydra_path ip service port uw pw threads export_type
          irf wait_time tmpName ec se fc).result =
            .error (.hydraUnknownServiceError ("Unknown service: " ++ pyLower service)) ∧
        (bruteforce fs sup unsup hydra_path ip service port uw pw threads export_type
          irf wait_time tmpName ec se fc).launched = false))) ∧
    (∀ (fs : FS) (ap : String → String) (sup unsup : List String)
      (hydra_path ip service : String) (port : Int) (upw : String) (threads : Int)
      (export_type : String) (irf : Bool) (wait_time : Int) (tmpName : String) (ec : Int)
      (se : String) (fc : String → Option Json),
      fs (ap upw) = true → export_type ∈ valid_outputs → pyLower service ∉ sup →
      ((pyLower service ∈ unsup →
        (bruteforce_with_userpass_wordlist fs ap sup unsup hydra_path ip service port
          upw threads export_type irf wait_time tmpName ec se fc).result =
            .error (.hydraUnsupportedServiceError
              ("Unsupported service given : " ++ pyLower service)) ∧
        (bruteforce_with_userpass_wordlist fs ap sup unsup hydra_path ip service port
          upw threads export_type irf wait_time tmpName ec se fc).launched = false) ∧
       (pyLower service ∉ unsup →
        (bruteforce_with_userpass_wordlist fs ap sup unsup hydra_path ip service port
          upw threads export_type irf wait_time tmpName ec se fc).result =
            .error (.hydraUnknownServiceError ("Unknown service: " ++ pyLower service)) ∧
        (bruteforce_with_userpass_wordlist fs ap sup unsup hydra_path ip service port
          upw threads export_type irf wait_time tmpName ec se fc).launched = false))) ∧
    (∀ (fs : FS) (sup unsup : List String) (hydra_path ip s t : String) (port : Int)
      (uw pw : Option String) (threads : Int) (export_type : String) (irf : Bool)
      (wait_time : Int) (tmpName : String) (ec : Int) (se : String)
      (fc : String → Option Json),
      pyLower s = pyLower t →
      bruteforce fs sup unsup hydra_path ip s port uw pw threads export_type irf
        wait_time tmpName ec se fc =
      bruteforce fs sup unsup hydra_path ip t port uw pw threads export_type irf
        wait_time tmpName ec se fc) ∧
    (∀ (fs : FS) (ap : String → String) (sup unsup : List String)
      (hydra_path ip s t : String) (port : Int) (upw : String) (threads : Int)
      (export_type : String) (irf : Bool) (wait_time : Int) (tmpName : String) (ec : Int)
      (se : String) (fc : String → Option Json),
      pyLower s = pyLower t →
      bruteforce_with_userpass_wordlist fs ap sup unsup hydra_path ip s port upw threads
        export_type irf wait_time tmpName ec se fc =
      bruteforce_with_userpass_wordlist fs ap sup unsup hydra_path ip t port upw threads
        export_type irf wait_time tmpName ec se fc) := by
  refine ⟨?_, ?_, ?_, ?_⟩
  · intro fs sup unsup hydra_path ip service port uw pw threads export_type irf
      wait_time tmpName ec se fc hout hnsup
    constructor
    · intro hun
      constructor <;>
        simp only [bruteforce, if_neg (not_not_intro hout), if_pos hnsup, if_pos hun]
    · intro hun
      constructor <;>
        simp only [bruteforce, if_neg (not_not_intro hout), if_pos hnsup, if_neg hun]
  · intro fs ap sup unsup hydra_path ip service port upw threads export_type irf
      wait_time tmpName ec se fc hfile hout hnsup
    constructor
    · intro hun
      constructor <;>
        simp [bruteforce_with_userpass_wordlist, hfile, if_neg (not_not_intro hout),
          if_pos hnsup, if_pos hun]
    · intro hun
      constructor <;>
        simp [bruteforce_with_userpass_wordlist, hfile, if_neg (not_not_intro hout),
          if_pos hnsup, if_neg hun]
  · intro fs sup unsup hydra_path ip s t port uw pw threads export_type irf wait_time
      tmpName ec se fc h
    unfold bruteforce
    rw [h]
  · intro fs ap sup unsup hydra_path ip s t port upw threads export_type irf wait_time
      tmpName ec se fc h
    unfold bruteforce_with_userpass_wordlist
    rw [h]

/-- Witness for C5: with supported list `["ssh"]` and unsupported list
`["rdp"]`, service `"RDP"` fails as unsupported, `"telnet"` fails as unknown,
and `"SSH"` behaves identically to `"ssh"`. -/
theorem service_validation_after_lowercasing_witness :
    (bruteforce (fun _ => true) ["ssh"] ["rdp"] "/usr/bin/hydra" "127.0.0.1" "RDP" 3389
        (some "u") (some "p") 4 "json" true 2 "/tmp/o" 0 "" (fun _ => none)).result =
      .error (.hydraUnsupportedServiceError
        ("Unsupported service given : " ++ pyLower "RDP")) ∧
    (bruteforce (fun _ => true) ["ssh"] ["rdp"] "/usr/bin/hydra" "127.0.0.1" "telnet" 23
        (some "u") (some "p") 4 "json" true 2 "/tmp/o" 0 "" (fun _ => none)).result =
      .error (.hydraUnknownServiceError ("Unknown service: " ++ pyLower "telnet")) ∧
    bruteforce (fun _ => true) ["ssh"] ["rdp"] "/usr/bin/hydra" "127.0.0.1" "SSH" 22
        (some "u") (some "p") 4 "json" true 2 "/tmp/o" 0 "" (fun _ => none) =
      bruteforce (fun _ => true) ["ssh"] ["rdp"] "/usr/bin/hydra" "127.0.0.1" "ssh" 22
        (some "u") (some "p") 4 "json" true 2 "/tmp/o" 0 "" (fun _ => none) := by
  refine ⟨?_, ?_, ?_⟩
  · exact ((service_validation_after_lowercasing.1 (fun _ => true) ["ssh"] ["rdp"]
      "/usr/bin/hydra" "127.0.0.1" "RDP" 3389 (some "u") (some "p") 4 "json" true 2
      "/tmp/o" 0 "" (fun _ => none) (by decide) (by decide)).1 (by decide)).1
  · exact ((service_validation_after_lowercasing.1 (fun _ => true) ["ssh"] ["rdp"]
      "/usr/bin/hydra" "127.0.0.1" "telnet" 23 (some "u") (some "p") 4 "json" true 2
      "/tmp/o" 0 "" (fun _ => none) (by decide) (by decide)).2 (by decide)).1
  · exact service_validation_after_lowercasing.2.2.1 (fun _ => true) ["ssh"] ["rdp"]
      "/usr/bin/hydra" "127.0.0.1" "SSH" "ssh" 22 (some "u") (some "p") 4 "json" true 2
      "/tmp/o" 0 "" (fun _ => none) (by decide)

/-- C6: in the dual-wordlist entry point, a service outside the
`service_without_user` allow-list with no user wordlist fails with
`HydraNoWordlistGiven` before any process launch; a missing password wordlist
likewise fails with a `HydraNoWordlistGiven` error (for every service); and
for a service in the allow-list the username requirement is suppressed
entirely: with a password source present the call proceeds to launching the
process even though the user wordlist is absent. -/
theorem wordlist_requirements_dual_mode
    (fs : FS) (sup unsup : List String) (hydra_path ip service : String) (port : Int)
    (uw pw : Option String) (threads : Int) (export_type : String) (irf : Bool)
    (wait_time : Int) (tmpName : String) (ec : Int) (se : String)
    (fc : String → Option Json)
    (hout : export_type ∈ valid_outputs) (hsup : pyLower service ∈ sup) :
    (pyLower service ∉ service_without_user → uw = none →
      (bruteforce fs sup unsup hydra_path ip service port uw pw threads export_type irf
        wait_time tmpName ec se fc).result =
          .error (.hydraNoWordlistGiven "user_wordlist is None") ∧
      (bruteforce fs sup unsup hydra_path ip service port uw pw threads export_type irf
        wait_time tmpName ec se fc).launched = false) ∧
    (pw = none →
      (∃ m, (bruteforce fs sup unsup hydra_path ip service port uw pw threads
        export_type irf wait_time tmpName ec se fc).result =
          .error (.hydraNoWordlistGiven m)) ∧
      (bruteforce fs sup unsup hydra_path ip service port uw pw threads export_type irf
        wait_time tmpName ec se fc).launched = false) ∧
    (pyLower service ∈ service_without_user → ∀ p, pw = some p →
      (bruteforce fs sup unsup hydra_path ip service port uw pw threads export_type irf
        wait_time tmpName ec se fc).launched = true) := by
  refine ⟨?_, ?_, ?_⟩
  · intro hns huw
    subst huw
    constructor <;>
      simp [bruteforce, _user_and_pass_wordlists_string_generator,
        if_neg (not_not_intro hout), if_neg (not_not_intro hsup), if_neg hns]
  · intro hpw
    subst hpw
    by_cases hsw : pyLower service ∈ service_without_user
    · refine ⟨⟨"pass_wordlist is None", ?_⟩, ?_⟩ <;>
        simp [bruteforce, _user_and_pass_wordlists_string_generator,
          if_neg (not_not_intro hout), if_neg (not_not_intro hsup), if_pos hsw]
    · cases uw with
      | none =>
        refine ⟨⟨"user_wordlist is None", ?_⟩, ?_⟩ <;>
          simp [bruteforce, _user_and_pass_wordlists_string_generator,
            if_neg (not_not_intro hout), if_neg (not_not_intro hsup), if_neg hsw]
      | some u =>
        have hgen : ∀ fs2 : FS,
            _user_and_pass_wordlists_string_generator fs2 hydra_path ip threads wait_time
              (pyLower service) port (pyLower export_type) irf (some u) none
              (some tmpName) =
            .error (.hydraNoWordlistGiven "pass_wordlist is None") := by
          intro fs2
          cases hfu : fs2 u <;>
            simp [_user_and_pass_wordlists_string_generator, if_neg hsw, hfu]
        refine ⟨⟨"pass_wordlist is None", ?_⟩, ?_⟩ <;>
          simp [bruteforce, if_neg (not_not_intro hout), if_neg (not_not_intro hsup),
            hgen]
  · intro hsw p hp
    subst hp
    simp only [bruteforce, _user_and_pass_wordlists_string_generator,
      if_neg (not_not_intro hout), if_neg (not_not_intro hsup), if_pos hsw]
    split <;> rfl

/-- Witness for C6: with supported service `"ssh"` (requires a username) and
allow-listed service `"snmp"`, the three behaviours at concrete inputs. -/
theorem wordlist_requirements_dual_mode_witness :
    (bruteforce (fun _ => true) ["ssh"] [] "/usr/bin/hydra" "127.0.0.1" "ssh" 22 none
        (some "p") 4 "json" true 2 "/tmp/o" 0 "" (fun _ => none)).result =
      .error (.hydraNoWordlistGiven "user_wordlist is None") ∧
    (∃ m, (bruteforce (fun _ => true) ["ssh"] [] "/usr/bin/hydra" "127.0.0.1" "ssh" 22
        (some "u") none 4 "json" true 2 "/tmp/o" 0 "" (fun _ => none)).result =
      .error (.hydraNoWordlistGiven m)) ∧
    (bruteforce (fun _ => true) ["snmp"] [] "/usr/bin/hydra" "127.0.0.1" "snmp" 161 none
        (some "p") 4 "json" true 2 "/tmp/o" 0 ""
        (fun _ => some (.obj [("results", .arr [])]))).launched = true := by
  refine ⟨?_, ?_, ?_⟩
  · exact ((wordlist_requirements_dual_mode (fun _ => true) ["ssh"] [] "/usr/bin/hydra"
      "127.0.0.1" "ssh" 22 none (some "p") 4 "json" true 2 "/tmp/o" 0 "" (fun _ => none)
      (by decide) (by decide)).1 (by decide) rfl).1
  · exact ((wordlist_requirements_dual_mode (fun _ => true) ["ssh"] [] "/usr/bin/hydra"
      "127.0.0.1" "ssh" 22 (some "u") none 4 "json" true 2 "/tmp/o" 0 "" (fun _ => none)
      (by decide) (by decide)).2.1 rfl).1
  · exact (wordlist_requirements_dual_mode (fun _ => true) ["snmp"] [] "/usr/bin/hydra"
      "127.0.0.1" "snmp" 161 none (some "p") 4 "json" true 2 "/tmp/o" 0 ""
      (fun _ => some (.obj [("results", .arr [])])) (by decide) (by decide)).2.2
      (by decide) "p" rfl

end PyHydra
